import Mathlib

/-!
Shallow embedding of `src/iss_tracker.py` (ISS trajectory tracker).

Conventions of the embedding:
* Instants (`datetime` values compared by `.timestamp()`) are modelled as
  integers on a common timeline, measured in seconds.
* Python floats are idealised as real numbers.
* Python dicts with string keys are modelled as association lists.
* External collaborators (the HTTP fetcher, `datetime.strptime` used as a
  selector parser, the Nominatim reverse geocoder) are passed in as explicit
  arguments, so each function of the repository becomes a pure function of
  its state and of the outcome of its external calls.
-/

namespace IssTracker

/-- Fields of one ephemeris timestamp in the fixed feed format
`YYYY-DDDThh:mm:ss.sssZ` (day-of-year form), as extracted by
`datetime.strptime` with `ISS_TRAJECTORY_DATA_DATETIME_FORMAT`. -/
structure TS where
  year : Nat
  doy : Nat
  hour : Nat
  minute : Nat
  second : Nat
  millis : Nat
deriving DecidableEq

/-- A header / metadata value after the conversion loop of
`NASADataManager._fetch_data`: either left as plain text or converted to a
true instant (`datetime` object). -/
inductive HVal where
  | str (s : String)
  | instant (t : TS)
deriving DecidableEq

/-- `True` exactly on converted (instant) values. -/
def HVal.isInstant : HVal → Bool
  | .str _ => false
  | .instant _ => true

/-- `Header = dict[str, str|datetime]` of the source. -/
abbrev Header := List (String × HVal)

/-- `Metadata = dict[str, str|datetime]` of the source. -/
abbrev Metadata := List (String × HVal)

/-- `Comments = list[str]` of the source. -/
abbrev Comments := List String

/-- One state vector (`Epoch` dict of the source): a timestamp (instant,
seconds), position `x y z` in km and velocity `dx dy dz` in km/s. -/
structure Epoch where
  timestamp : Int
  x : ℝ
  y : ℝ
  z : ℝ
  dx : ℝ
  dy : ℝ
  dz : ℝ

/-- `EpochList = list[Epoch]` of the source. -/
abbrev EpochList := List Epoch

/-- The mutable fields of `NASADataManager` that make up the cache entry
(the `datasource_url` is an immutable configuration string and is omitted). -/
structure CacheState where
  header : Option Header
  metadata : Option Metadata
  comments : Option Comments
  data : Option EpochList
  data_timestamp : Option Int

/-- The class-level defaults of `NASADataManager`: every cache field starts
out as `None`. -/
def initialCache : CacheState := ⟨none, none, none, none, none⟩

/-- Outcome of one call to `NASADataManager._fetch_data`: either the parsed
tuple `(header, metadata, comments, data)` or an exception. -/
inductive FetchResult where
  | ok (header : Header) (metadata : Metadata) (comments : Comments) (data : EpochList)
  | err

/-- `timedelta(minutes=15)` of the staleness check, in seconds. -/
def ttlSeconds : Int := 15 * 60

/-- The staleness test of `fetch_current_data`:
`self.data_timestamp is not None and self.data_timestamp > datetime.utcnow() - timedelta(minutes=15)`. -/
def isFresh (s : CacheState) (now : Int) : Bool :=
  match s.data_timestamp with
  | some ts => decide (ts > now - ttlSeconds)
  | none => false

/-- Result of one call to `NASADataManager.fetch_current_data`: the new cache
state, the returned boolean, and how many times `_fetch_data` was invoked. -/
structure FetchOutcome where
  state : CacheState
  success : Bool
  fetchCalls : Nat

/-- `NASADataManager.fetch_current_data`, with the current clock reading
`now` and the outcome `fetch` of the (single possible) `_fetch_data` call
passed in explicitly.  If the cached timestamp is fresh the state is returned
untouched with `True`; otherwise the fetch is attempted: on success all five
fields are reassigned from the fetched tuple and `data_timestamp = now`; on
exception all five fields are set to `None` and `False` is returned. -/
def fetch_current_data (s : CacheState) (now : Int) (fetch : FetchResult) : FetchOutcome :=
  if isFresh s now then ⟨s, true, 0⟩
  else
    match fetch with
    | .ok h m c d => ⟨⟨some h, some m, some c, some d, some now⟩, true, 1⟩
    | .err => ⟨⟨none, none, none, none, none⟩, false, 1⟩

/-- All five cache fields are present. -/
def allPresent (s : CacheState) : Prop :=
  s.header.isSome ∧ s.metadata.isSome ∧ s.comments.isSome ∧ s.data.isSome ∧
    s.data_timestamp.isSome

/-- All five cache fields are absent. -/
def allAbsent (s : CacheState) : Prop :=
  s.header = none ∧ s.metadata = none ∧ s.comments = none ∧ s.data = none ∧
    s.data_timestamp = none

end IssTracker

namespace IssTracker

/-- C1: when the cached timestamp is present and less than 15 minutes old the
call succeeds, leaves the whole state untouched and never invokes the
fetcher; when the timestamp is absent, or is 15 or more minutes old, exactly
one fetch is attempted. -/
theorem fetch_current_data_ttl (s : CacheState) (now : Int) (fetch : FetchResult) :
    (∀ ts, s.data_timestamp = some ts → now - ts < ttlSeconds →
      fetch_current_data s now fetch = ⟨s, true, 0⟩) ∧
    (s.data_timestamp = none → (fetch_current_data s now fetch).fetchCalls = 1) ∧
    (∀ ts, s.data_timestamp = some ts → ttlSeconds ≤ now - ts →
      (fetch_current_data s now fetch).fetchCalls = 1) := by
  refine ⟨?_, ?_, ?_⟩
  · intro ts hts hlt
    have hfresh : isFresh s now = true := by
      simp [isFresh, hts]; omega
    simp [fetch_current_data, hfresh]
  · intro hnone
    have hfresh : isFresh s now = false := by simp [isFresh, hnone]
    cases fetch <;> simp [fetch_current_data, hfresh]
  · intro ts hts hge
    have hfresh : isFresh s now = false := by
      simp [isFresh, hts]; omega
    cases fetch <;> simp [fetch_current_data, hfresh]

/-- Witness for C1 at concrete states: a 1-second-old entry is served
unchanged without fetching, and a 900-second-old entry triggers exactly one
fetch. -/
theorem fetch_current_data_ttl_witness :
    fetch_current_data ⟨some [], some [], some [], some [], some 99⟩ 100 .err =
      ⟨⟨some [], some [], some [], some [], some 99⟩, true, 0⟩ ∧
    (fetch_current_data ⟨some [], some [], some [], some [], some 0⟩ 900 .err).fetchCalls = 1 := by
  constructor
  · exact (fetch_current_data_ttl ⟨some [], some [], some [], some [], some 99⟩ 100 .err).1
      99 rfl (by decide)
  · exact (fetch_current_data_ttl ⟨some [], some [], some [], some [], some 0⟩ 900 .err).2.2
      0 rfl (by decide)

/-- C2: whenever a fetch is actually attempted (timestamp absent or at least
15 minutes old) and it fails, every cache field is cleared to `None` and the
call returns `False`; no partial or previous state survives. -/
theorem fetch_current_data_failure_clears
    (s : CacheState) (now : Int)
    (h : ∀ ts, s.data_timestamp = some ts → ttlSeconds ≤ now - ts) :
    fetch_current_data s now .err = ⟨⟨none, none, none, none, none⟩, false, 1⟩ := by
  have hfresh : isFresh s now = false := by
    cases hts : s.data_timestamp with
    | none => simp [isFresh, hts]
    | some ts => have := h ts hts; simp [isFresh, hts]; omega
  simp [fetch_current_data, hfresh]

/-- Witness for C2: a failing fetch over a fully-populated stale cache
leaves every field absent and returns `False`. -/
theorem fetch_current_data_failure_clears_witness :
    fetch_current_data ⟨some [("A", .str "b")], some [], some ["c"], some [], some 0⟩ 900 .err =
      ⟨⟨none, none, none, none, none⟩, false, 1⟩ :=
  fetch_current_data_failure_clears
    ⟨some [("A", .str "b")], some [], some ["c"], some [], some 0⟩ 900
    (by intro ts hts; cases hts; decide)

/-- C3: the cache entry starts fully absent, every call preserves
"all fields present or all fields absent", and a successful refresh of a
stale/absent entry replaces the whole entry with exactly the fetched data
and the new timestamp, independent of prior content. -/
theorem fetch_current_data_wholesale (s : CacheState) (now : Int) (fetch : FetchResult) :
    allAbsent initialCache ∧
    (allPresent s ∨ allAbsent s →
      allPresent (fetch_current_data s now fetch).state ∨
        allAbsent (fetch_current_data s now fetch).state) ∧
    (∀ h m c d, (∀ ts, s.data_timestamp = some ts → ttlSeconds ≤ now - ts) →
      fetch = .ok h m c d →
      (fetch_current_data s now fetch).state = ⟨some h, some m, some c, some d, some now⟩) := by
  refine ⟨⟨rfl, rfl, rfl, rfl, rfl⟩, ?_, ?_⟩
  · intro hinv
    by_cases hfresh : isFresh s now = true
    · simpa [fetch_current_data, hfresh] using hinv
    · rw [Bool.not_eq_true] at hfresh
      cases fetch with
      | ok h m c d =>
        left
        simp [fetch_current_data, hfresh, allPresent]
      | err =>
        right
        simp [fetch_current_data, hfresh, allAbsent]
  · intro h m c d hstale hfetch
    have hfresh : isFresh s now = false := by
      cases hts : s.data_timestamp with
      | none => simp [isFresh, hts]
      | some ts => have := hstale ts hts; simp [isFresh, hts]; omega
    subst hfetch
    simp [fetch_current_data, hfresh]

/-- Witness for C3: the invariant holds after a call on a fully-populated
state, and a successful stale refresh installs exactly the new tuple. -/
theorem fetch_current_data_wholesale_witness :
    (allPresent (fetch_current_data ⟨some [], some [], some [], some [], some 0⟩ 900
        (.ok [("A", .str "b")] [] ["c"] [])).state ∨
      allAbsent (fetch_current_data ⟨some [], some [], some [], some [], some 0⟩ 900
        (.ok [("A", .str "b")] [] ["c"] [])).state) ∧
    (fetch_current_data ⟨some [], some [], some [], some [], some 0⟩ 900
        (.ok [("A", .str "b")] [] ["c"] [])).state =
      ⟨some [("A", .str "b")], some [], some ["c"], some [], some 900⟩ := by
  constructor
  · exact (fetch_current_data_wholesale ⟨some [], some [], some [], some [], some 0⟩ 900
      (.ok [("A", .str "b")] [] ["c"] [])).2.1
      (Or.inl ⟨rfl, rfl, rfl, rfl, rfl⟩)
  · exact (fetch_current_data_wholesale ⟨some [], some [], some [], some [], some 0⟩ 900
      (.ok [("A", .str "b")] [] ["c"] [])).2.2
      [("A", .str "b")] [] ["c"] [] (by intro ts hts; cases hts; decide) rfl

end IssTracker

namespace IssTracker

/-! ### Pagination (`App.epochs`) -/

/-- `App.epochs`, after the HTTP glue has turned the two optional query
parameters into optional naturals (the source rejects non-numeric strings
before this logic runs).  `none` models the `400 Bad request` aborts.
Mirrors the source order: default the offset to `0`, reject
`offset >= len(data)`, default the limit to `len(data) - offset`, reject
`limit == 0`, then return `data[offset:][0:limit]`. -/
def epochs {α : Type} (data : List α) (offsetParam limitParam : Option Nat) :
    Option (List α) :=
  let offset := match offsetParam with
    | none => 0
    | some o => o
  if offset ≥ data.length then none
  else
    let limit := match limitParam with
      | none => data.length - offset
      | some l => l
    if limit = 0 then none
    else some ((data.drop offset).take limit)

/-- Closed form of `epochs` used to settle the pagination claim. -/
theorem epochs_eq {α : Type} (data : List α) (op lp : Option Nat) :
    epochs data op lp =
      if data.length ≤ op.getD 0 then none
      else if lp.getD (data.length - op.getD 0) = 0 then none
      else some ((data.drop (op.getD 0)).take (lp.getD (data.length - op.getD 0))) := by
  cases op <;> cases lp <;> simp [epochs]

/-- C7: omitted offset defaults to 0; an offset at or past the end, or a
limit of 0, is rejected; an omitted limit defaults to the remainder after
the offset; otherwise the result is the sub-sequence starting at `offset`
of at most `limit` elements, clamped so it never reaches past the end. -/
theorem epochs_pagination {α : Type} (data : List α) (offsetParam limitParam : Option Nat) :
    (epochs data none limitParam = epochs data (some 0) limitParam) ∧
    (data.length ≤ offsetParam.getD 0 → epochs data offsetParam limitParam = none) ∧
    (epochs data offsetParam (some 0) = none) ∧
    (offsetParam.getD 0 < data.length →
      epochs data offsetParam none = some (data.drop (offsetParam.getD 0))) ∧
    (∀ l, offsetParam.getD 0 < data.length → limitParam = some l → l ≠ 0 →
      epochs data offsetParam limitParam = some ((data.drop (offsetParam.getD 0)).take l)) ∧
    (∀ res, epochs data offsetParam limitParam = some res →
      res.length ≤ limitParam.getD (data.length - offsetParam.getD 0) ∧
      offsetParam.getD 0 + res.length ≤ data.length) := by
  refine ⟨?_, ?_, ?_, ?_, ?_, ?_⟩
  · simp [epochs_eq]
  · intro h
    rw [epochs_eq, if_pos h]
  · rw [epochs_eq]
    by_cases h : data.length ≤ offsetParam.getD 0
    · rw [if_pos h]
    · rw [if_neg h]
      simp
  · intro h
    rw [epochs_eq, if_neg (by omega)]
    have hne : (none : Option Nat).getD (data.length - offsetParam.getD 0) ≠ 0 := by
      simp; omega
    rw [if_neg hne]
    simp [List.take_of_length_le (le_of_eq (List.length_drop _ _))]
  · intro l ho hl hne
    subst hl
    rw [epochs_eq, if_neg (by omega), if_neg (by simpa using hne)]
    simp
  · intro res hres
    rw [epochs_eq] at hres
    by_cases h1 : data.length ≤ offsetParam.getD 0
    · rw [if_pos h1] at hres
      exact absurd hres (by simp)
    · rw [if_neg h1] at hres
      by_cases h2 : limitParam.getD (data.length - offsetParam.getD 0) = 0
      · rw [if_pos h2] at hres
        exact absurd hres (by simp)
      · rw [if_neg h2] at hres
        have hr : res = (data.drop (offsetParam.getD 0)).take
            (limitParam.getD (data.length - offsetParam.getD 0)) :=
          (Option.some.inj hres).symm
        subst hr
        constructor
        · exact List.length_take_le _ _
        · have ht := List.length_take (limitParam.getD (data.length - offsetParam.getD 0))
            (data.drop (offsetParam.getD 0))
          have hd : (data.drop (offsetParam.getD 0)).length =
              data.length - offsetParam.getD 0 := List.length_drop _ _
          omega

/-- Witness for C7: the spec's concrete pagination examples on
`[0,1,2,3,4]`. -/
theorem epochs_pagination_witness :
    epochs [0, 1, 2, 3, 4] (some 2) (some 2) = some [2, 3] ∧
    epochs [0, 1, 2, 3, 4] (some 2) (some 50) = some [2, 3, 4] ∧
    epochs [0, 1, 2, 3, 4] (some 1) (some 0) = none ∧
    epochs [0, 1, 2, 3, 4] (some 5) (some 2) = none := by
  refine ⟨?_, ?_, ?_, ?_⟩
  · have h := (epochs_pagination [0, 1, 2, 3, 4] (some 2) (some 2)).2.2.2.2.1
      2 (by decide) rfl (by decide)
    rw [h]; decide
  · have h := (epochs_pagination [0, 1, 2, 3, 4] (some 2) (some 50)).2.2.2.2.1
      50 (by decide) rfl (by decide)
    rw [h]; decide
  · exact (epochs_pagination [0, 1, 2, 3, 4] (some 1) (some 0)).2.2.1
  · exact (epochs_pagination [0, 1, 2, 3, 4] (some 5) (some 2)).2.1 (by decide)

end IssTracker

namespace IssTracker

/-! ### Nearest epoch (`get_most_current_epoch`) -/

/-- `abs(current_time - d['timestamp'].timestamp())` for one entry. -/
def tsDelta (now : Int) (d : Epoch) : Nat :=
  (now - d.timestamp).natAbs

/-- One iteration of the loop of `get_most_current_epoch`: `none` models the
initial `(None, math.inf)` accumulator (any finite delta beats `math.inf`),
and the update happens only on a strictly smaller delta. -/
def bestStep (now : Int) (acc : Option (Epoch × Nat)) (d : Epoch) : Option (Epoch × Nat) :=
  match acc with
  | none => some (d, tsDelta now d)
  | some (b, bd) => if tsDelta now d < bd then some (d, tsDelta now d) else some (b, bd)

/-- `get_most_current_epoch`, with the wall-clock reading `now` passed in:
a linear scan keeping the entry with the lowest absolute delta, returning
`none` (Python `None`) when the dataset is empty. -/
def get_most_current_epoch (now : Int) (data : EpochList) : Option Epoch :=
  (data.foldl (bestStep now) none).map Prod.fst

/-- Invariant of the scan: starting from a candidate `(b, bd)`, the fold
either keeps the candidate (and nothing in the rest is strictly better) or
ends on the first strictly better entry of the rest, which is minimal over
the rest. -/
theorem foldl_bestStep_spec (now : Int) :
    ∀ (l : EpochList) (b : Epoch) (bd : Nat),
      (l.foldl (bestStep now) (some (b, bd)) = some (b, bd) ∧
        ∀ d ∈ l, bd ≤ tsDelta now d) ∨
      (∃ i, ∃ hi : i < l.length,
        l.foldl (bestStep now) (some (b, bd)) =
          some (l.get ⟨i, hi⟩, tsDelta now (l.get ⟨i, hi⟩)) ∧
        tsDelta now (l.get ⟨i, hi⟩) < bd ∧
        (∀ d ∈ l.take i, tsDelta now (l.get ⟨i, hi⟩) < tsDelta now d) ∧
        (∀ d ∈ l, tsDelta now (l.get ⟨i, hi⟩) ≤ tsDelta now d)) := by
  intro l
  induction l with
  | nil => intro b bd; left; exact ⟨rfl, by simp⟩
  | cons a t ih =>
    intro b bd
    by_cases hcmp : tsDelta now a < bd
    · have hstep : (a :: t).foldl (bestStep now) (some (b, bd)) =
          t.foldl (bestStep now) (some (a, tsDelta now a)) := by
        simp [List.foldl_cons, bestStep, hcmp]
      rcases ih a (tsDelta now a) with ⟨heq, hmin⟩ | ⟨i, hi, heq, hlt, hpre, hmin⟩
      · right
        refine ⟨0, by simp, ?_, ?_, ?_, ?_⟩
        · rw [hstep, heq]; rfl
        · simpa using hcmp
        · simp
        · intro d hd
          rcases List.mem_cons.mp hd with hd | hd
          · subst hd; simp
          · simpa using hmin d hd
      · right
        refine ⟨i + 1, by simpa using Nat.succ_lt_succ hi, ?_, ?_, ?_, ?_⟩
        · rw [hstep]; simpa using heq
        · simpa using lt_trans hlt hcmp
        · intro d hd
          rw [List.take_succ_cons] at hd
          rcases List.mem_cons.mp hd with hd | hd
          · subst hd; simpa using hlt
          · simpa using hpre d hd
        · intro d hd
          rcases List.mem_cons.mp hd with hd | hd
          · subst hd; simpa using le_of_lt hlt
          · simpa using hmin d hd
    · have hstep : (a :: t).foldl (bestStep now) (some (b, bd)) =
          t.foldl (bestStep now) (some (b, bd)) := by
        simp [List.foldl_cons, bestStep, hcmp]
      rcases ih b bd with ⟨heq, hmin⟩ | ⟨i, hi, heq, hlt, hpre, hmin⟩
      · left
        refine ⟨by rw [hstep, heq], ?_⟩
        intro d hd
        rcases List.mem_cons.mp hd with hd | hd
        · subst hd; omega
        · exact hmin d hd
      · right
        refine ⟨i + 1, by simpa using Nat.succ_lt_succ hi, ?_, ?_, ?_, ?_⟩
        · rw [hstep]; simpa using heq
        · simpa using hlt
        · intro d hd
          rw [List.take_succ_cons] at hd
          rcases List.mem_cons.mp hd with hd | hd
          · subst hd
            have : tsDelta now (t.get ⟨i, hi⟩) < bd := hlt
            simp only [List.get_cons_succ]
            omega
          · simpa using hpre d hd
        · intro d hd
          rcases List.mem_cons.mp hd with hd | hd
          · subst hd
            have : tsDelta now (t.get ⟨i, hi⟩) < bd := hlt
            simp only [List.get_cons_succ]
            omega
          · simpa using hmin d hd

/-- C5: on a non-empty dataset the scan returns the entry at some position
`i` whose absolute delta from `now` is minimal over the whole dataset, and
every entry strictly before position `i` has a strictly larger delta (the
first minimiser wins, since no replacement happens on an equal delta). -/
theorem get_most_current_epoch_min_first (now : Int) (data : EpochList)
    (h : data ≠ []) :
    ∃ i, ∃ hi : i < data.length,
      get_most_current_epoch now data = some (data.get ⟨i, hi⟩) ∧
      (∀ d ∈ data, tsDelta now (data.get ⟨i, hi⟩) ≤ tsDelta now d) ∧
      (∀ d ∈ data.take i, tsDelta now (data.get ⟨i, hi⟩) < tsDelta now d) := by
  cases data with
  | nil => exact absurd rfl h
  | cons a t =>
    have hstep : (a :: t).foldl (bestStep now) none =
        t.foldl (bestStep now) (some (a, tsDelta now a)) := by
      simp [List.foldl_cons, bestStep]
    rcases foldl_bestStep_spec now t a (tsDelta now a) with
      ⟨heq, hmin⟩ | ⟨i, hi, heq, hlt, hpre, hmin⟩
    · refine ⟨0, by simp, ?_, ?_, ?_⟩
      · rw [get_most_current_epoch, hstep, heq]; rfl
      · intro d hd
        rcases List.mem_cons.mp hd with hd | hd
        · subst hd; simp
        · simpa using hmin d hd
      · simp
    · refine ⟨i + 1, by simpa using Nat.succ_lt_succ hi, ?_, ?_, ?_⟩
      · rw [get_most_current_epoch, hstep, heq]; simp
      · intro d hd
        rcases List.mem_cons.mp hd with hd | hd
        · subst hd; simpa using le_of_lt hlt
        · simpa using hmin d hd
      · intro d hd
        rw [List.take_succ_cons] at hd
        rcases List.mem_cons.mp hd with hd | hd
        · subst hd; simpa using hlt
        · simpa using hpre d hd

/-- Witness for C5 on a concrete three-entry dataset with `now = 12`: the
scan picks a minimal-delta entry, first among ties. -/
theorem get_most_current_epoch_min_first_witness :
    ∃ i, ∃ hi : i < ([⟨0, 0, 0, 0, 0, 0, 0⟩, ⟨10, 0, 0, 0, 0, 0, 0⟩,
        ⟨14, 0, 0, 0, 0, 0, 0⟩] : EpochList).length,
      get_most_current_epoch 12 [⟨0, 0, 0, 0, 0, 0, 0⟩, ⟨10, 0, 0, 0, 0, 0, 0⟩,
          ⟨14, 0, 0, 0, 0, 0, 0⟩] =
        some (([⟨0, 0, 0, 0, 0, 0, 0⟩, ⟨10, 0, 0, 0, 0, 0, 0⟩,
          ⟨14, 0, 0, 0, 0, 0, 0⟩] : EpochList).get ⟨i, hi⟩) ∧
      (∀ d ∈ ([⟨0, 0, 0, 0, 0, 0, 0⟩, ⟨10, 0, 0, 0, 0, 0, 0⟩,
          ⟨14, 0, 0, 0, 0, 0, 0⟩] : EpochList),
        tsDelta 12 (([⟨0, 0, 0, 0, 0, 0, 0⟩, ⟨10, 0, 0, 0, 0, 0, 0⟩,
          ⟨14, 0, 0, 0, 0, 0, 0⟩] : EpochList).get ⟨i, hi⟩) ≤ tsDelta 12 d) ∧
      (∀ d ∈ ([⟨0, 0, 0, 0, 0, 0, 0⟩, ⟨10, 0, 0, 0, 0, 0, 0⟩,
          ⟨14, 0, 0, 0, 0, 0, 0⟩] : EpochList).take i,
        tsDelta 12 (([⟨0, 0, 0, 0, 0, 0, 0⟩, ⟨10, 0, 0, 0, 0, 0, 0⟩,
          ⟨14, 0, 0, 0, 0, 0, 0⟩] : EpochList).get ⟨i, hi⟩) < tsDelta 12 d) :=
  get_most_current_epoch_min_first 12
    [⟨0, 0, 0, 0, 0, 0, 0⟩, ⟨10, 0, 0, 0, 0, 0, 0⟩, ⟨14, 0, 0, 0, 0, 0, 0⟩]
    (by simp)

/-- C10: on the empty dataset the loop body never runs, so the initial
`None` accumulator is returned rather than an error being signalled. -/
theorem get_most_current_epoch_empty (now : Int) :
    get_most_current_epoch now [] = none := rfl

end IssTracker

namespace IssTracker

/-! ### Speed (`speed`) -/

/-- `speed`: `math.sqrt(epoch['dx'] ** 2 + epoch['dy'] ** 2 + epoch['dz'] ** 2)`,
with floats idealised as reals. -/
noncomputable def speed (e : Epoch) : ℝ :=
  Real.sqrt (e.dx ^ 2 + e.dy ^ 2 + e.dz ^ 2)

/-- C6: `speed` is the Euclidean norm of the velocity vector: it is the
nonnegative real whose square is `dx² + dy² + dz²`; the zero vector gives 0
and `(1,1,1)` gives `√3`. -/
theorem speed_euclidean :
    (∀ e : Epoch, 0 ≤ speed e ∧ speed e ^ 2 = e.dx ^ 2 + e.dy ^ 2 + e.dz ^ 2) ∧
    (∀ e : Epoch, e.dx = 0 → e.dy = 0 → e.dz = 0 → speed e = 0) ∧
    (∀ e : Epoch, e.dx = 1 → e.dy = 1 → e.dz = 1 → speed e = Real.sqrt 3) := by
  refine ⟨?_, ?_, ?_⟩
  · intro e
    exact ⟨Real.sqrt_nonneg _, Real.sq_sqrt (by positivity)⟩
  · intro e h1 h2 h3
    simp [speed, h1, h2, h3]
  · intro e h1 h2 h3
    simp only [speed, h1, h2, h3]
    norm_num

/-- Witness for C6: the two concrete velocity vectors of the spec. -/
theorem speed_euclidean_witness :
    speed ⟨0, 0, 0, 0, 0, 0, 0⟩ = 0 ∧ speed ⟨0, 0, 0, 0, 1, 1, 1⟩ = Real.sqrt 3 :=
  ⟨speed_euclidean.2.1 ⟨0, 0, 0, 0, 0, 0, 0⟩ rfl rfl rfl,
   speed_euclidean.2.2 ⟨0, 0, 0, 0, 1, 1, 1⟩ rfl rfl rfl⟩

/-! ### Location label (`fetch_location_str`) -/

/-- The `address` attribute of a Nominatim result: a flat string or a
structured object with `city`, `municipality` and `country` fields. -/
inductive Address where
  | flat (s : String)
  | structured (city municipality country : String)

/-- One reverse-geocoding result object. -/
structure GeoLoc where
  address : Address

/-- `fetch_location_str`, with the geocoder call passed in as `reverse`
(called on the `(lat, lon)` pair of the `lla` triple; `Except.error` models
a raised exception, `Except.ok none` a `None` result).  A flat address is
returned verbatim, a structured one is composed as
`f'{city}, {municipality}, {country}'`, and an exception or `None` yields
the empty string. -/
def fetch_location_str (reverse : ℝ × ℝ → Except Unit (Option GeoLoc))
    (lla : ℝ × ℝ × ℝ) : String :=
  match reverse (lla.1, lla.2.1) with
  | .error _ => ""
  | .ok none => ""
  | .ok (some g) =>
    match g.address with
    | .flat s => s
    | .structured c m k => c ++ ", " ++ m ++ ", " ++ k

/-- C8: the label lookup never propagates a failure: a raised exception or a
`None` result degrades to the empty string, a flat address string is used
verbatim, and a structured address is composed as city, region, country. -/
theorem fetch_location_str_total (reverse : ℝ × ℝ → Except Unit (Option GeoLoc))
    (lla : ℝ × ℝ × ℝ) :
    (∀ err, reverse (lla.1, lla.2.1) = .error err → fetch_location_str reverse lla = "") ∧
    (reverse (lla.1, lla.2.1) = .ok none → fetch_location_str reverse lla = "") ∧
    (∀ s, reverse (lla.1, lla.2.1) = .ok (some ⟨.flat s⟩) →
      fetch_location_str reverse lla = s) ∧
    (∀ c m k, reverse (lla.1, lla.2.1) = .ok (some ⟨.structured c m k⟩) →
      fetch_location_str reverse lla = c ++ ", " ++ m ++ ", " ++ k) := by
  refine ⟨?_, ?_, ?_, ?_⟩
  · intro err h
    simp [fetch_location_str, h]
  · intro h
    simp [fetch_location_str, h]
  · intro s h
    simp [fetch_location_str, h]
  · intro c m k h
    simp [fetch_location_str, h]

/-- Witness for C8: each geocoder outcome at a concrete coordinate. -/
theorem fetch_location_str_total_witness :
    fetch_location_str (fun _ => .error ()) (0, 0, 400) = "" ∧
    fetch_location_str (fun _ => .ok none) (0, 0, 400) = "" ∧
    fetch_location_str (fun _ => .ok (some ⟨.flat "somewhere"⟩)) (0, 0, 400) = "somewhere" ∧
    fetch_location_str (fun _ => .ok (some ⟨.structured "acity" "astate" "acountry"⟩))
      (0, 0, 400) = "acity" ++ ", " ++ "astate" ++ ", " ++ "acountry" :=
  ⟨(fetch_location_str_total (fun _ => .error ()) (0, 0, 400)).1 () rfl,
   (fetch_location_str_total (fun _ => .ok none) (0, 0, 400)).2.1 rfl,
   (fetch_location_str_total (fun _ => .ok (some ⟨.flat "somewhere"⟩)) (0, 0, 400)).2.2.1
     "somewhere" rfl,
   (fetch_location_str_total (fun _ => .ok (some ⟨.structured "acity" "astate" "acountry"⟩))
     (0, 0, 400)).2.2.2 "acity" "astate" "acountry" rfl⟩

end IssTracker

namespace IssTracker

/-! ### Selector resolution (`App.specific_epoch`) -/

/-- How CPython classifies one character for the string built-ins that
`App.specific_epoch` relies on: a Unicode decimal digit (category Nd, with
its digit value) is accepted both by `str.isnumeric` and by `int`; a
numeric but non-decimal character (such as the vulgar fraction one-half,
U+00BD) is accepted by `str.isnumeric` while making `int` raise a
`ValueError`; any other character is non-numeric.  The classification is
injected as a parameter, so the theorems below hold for the full Unicode
table; concrete evaluations use `sampleCharClass`. -/
inductive PyCharClass where
  | decimal (v : Nat)
  | numericOther
  | other

/-- `True` on Unicode decimal digits — the characters accepted by `int`
and matched by `re`'s `\d`. -/
def isPyDigit (classify : Char → PyCharClass) (c : Char) : Bool :=
  match classify c with
  | .decimal _ => true
  | _ => false

/-- Digit value of a decimal character (0 on the others). -/
def digitVal (classify : Char → PyCharClass) (c : Char) : Nat :=
  match classify c with
  | .decimal v => v
  | _ => 0

/-- Python `s.isnumeric()`: nonempty and every character numeric (a decimal
digit or another numeric character). -/
def pyIsNumeric (classify : Char → PyCharClass) (s : String) : Bool :=
  !s.isEmpty && s.data.all fun c =>
    match classify c with
    | .other => false
    | _ => true

/-- `int(s)` succeeds exactly on nonempty strings of decimal digits (of any
script); on every other numeric string it raises `ValueError`. -/
def pyIsDecimalString (classify : Char → PyCharClass) (s : String) : Bool :=
  !s.isEmpty && s.data.all (isPyDigit classify)

/-- The base-10 value `int(s)` returns on a decimal string. -/
def pyIntVal (classify : Char → PyCharClass) (s : String) : Nat :=
  s.data.foldl (fun n c => 10 * n + digitVal classify c) 0

/-- The characters this file evaluates concretely, classified following the
Unicode character database as consumed by CPython: the ASCII digits
`'0'`–`'9'` and the Arabic-Indic digits U+0660–U+0669 are decimal digits
(category Nd) with their usual values; the vulgar fraction one-half U+00BD
is numeric but not decimal (`isnumeric()` is `True` on it, `int` raises);
every other character appearing in this development is non-numeric. -/
def sampleCharClass (c : Char) : PyCharClass :=
  if c.isDigit then .decimal (c.toNat - 48)
  else if 0x660 ≤ c.toNat ∧ c.toNat ≤ 0x669 then .decimal (c.toNat - 0x660)
  else if c.toNat = 0xBD then .numericOther
  else .other

/-- The vulgar fraction one-half (U+00BD), written by code point to keep
the file ASCII. -/
def halfChar : Char := Char.ofNat 0xBD

/-- Outcome of `App.specific_epoch`: the found record, the non-error empty
result `{'epoch': None}`, a `400 Bad request` abort, the deliberate `500`
abort for duplicate timestamps, or an uncaught exception (surfaced by
Flask as a generic `500 Internal Server Error`). -/
inductive EpochResult where
  | found (e : Epoch)
  | notFound
  | invalid
  | ambiguous
  | crash

/-- `True` exactly on the `400 Bad request` outcome. -/
def EpochResult.isInvalid : EpochResult → Bool
  | .invalid => true
  | _ => false

/-- `App.specific_epoch`, with the character classification of the Python
string built-ins injected as `classify` and `datetime.strptime` on the
selector injected as `parseTs` (returning the parsed instant, or `none`
when it raises).  `epoch.isnumeric()` routes numeric selectors to
`int(epoch)`: on a decimal-digit selector this indexes the dataset (out of
range aborts 400), while on a numeric-but-not-decimal selector `int`
raises a `ValueError` that no handler catches (`.crash`).  Non-numeric
selectors are parsed as timestamps (parse failure aborts 400) and matched
against the dataset by instant equality: zero matches yield the empty
result, one match the record, several the 500 abort. -/
def specific_epoch (classify : Char → PyCharClass) (parseTs : String → Option Int)
    (data : EpochList) (sel : String) : EpochResult :=
  if pyIsNumeric classify sel then
    if pyIsDecimalString classify sel then
      if h : pyIntVal classify sel < data.length then
        .found (data.get ⟨pyIntVal classify sel, h⟩)
      else .invalid
    else .crash
  else
    match parseTs sel with
    | none => .invalid
    | some t =>
      match data.filter (fun e => e.timestamp == t) with
      | [] => .notFound
      | [e] => .found e
      | _ :: _ :: _ => .ambiguous

/-- A string of decimal digits is in particular numeric. -/
theorem pyIsNumeric_of_decimal (classify : Char → PyCharClass) (s : String)
    (h : pyIsDecimalString classify s = true) : pyIsNumeric classify s = true := by
  rw [pyIsDecimalString, Bool.and_eq_true, List.all_eq_true] at h
  rw [pyIsNumeric, Bool.and_eq_true, List.all_eq_true]
  refine ⟨h.1, ?_⟩
  intro c hc
  have hd := h.2 c hc
  simp only [isPyDigit] at hd
  rcases hcl : classify c with v | _ | _ <;> simp_all

/-- Counterexample to C4 as stated: the selector `'½'` (U+00BD) is not made
of decimal digits and fails every timestamp parse, so the claim requires
the `Invalid` client error (400); but `str.isnumeric` is `True` on it, so
the source reaches `int('½')`, which raises a `ValueError` that nothing
catches — an HTTP 500 crash, not the 400 abort. -/
theorem specific_epoch_half_selector_crash :
    pyIsNumeric sampleCharClass ⟨[halfChar]⟩ = true ∧
    pyIsDecimalString sampleCharClass ⟨[halfChar]⟩ = false ∧
    (specific_epoch sampleCharClass (fun _ => none) [] ⟨[halfChar]⟩).isInvalid = false ∧
    specific_epoch sampleCharClass (fun _ => none) [] ⟨[halfChar]⟩ = .crash :=
  ⟨by decide, by decide, by decide, rfl⟩

/-- C4 (amended): a selector made entirely of decimal digits returns the
record at its base-10 value when in range and the 400 abort otherwise; a
numeric selector containing a non-decimal character makes `int` raise an
uncaught `ValueError` (a 500 crash, not the 400 abort); a non-numeric
selector that fails to parse is rejected with 400; a parsed timestamp
yields the empty result when no entry has an equal instant, the unique
matching record when exactly one does, and the server-side ambiguous abort
when more than one does. -/
theorem specific_epoch_resolution (classify : Char → PyCharClass)
    (parseTs : String → Option Int) (data : EpochList) (sel : String) :
    (pyIsDecimalString classify sel = true →
      (∀ h : pyIntVal classify sel < data.length,
        specific_epoch classify parseTs data sel =
          .found (data.get ⟨pyIntVal classify sel, h⟩)) ∧
      (data.length ≤ pyIntVal classify sel →
        specific_epoch classify parseTs data sel = .invalid)) ∧
    (pyIsNumeric classify sel = true → pyIsDecimalString classify sel = false →
      specific_epoch classify parseTs data sel = .crash) ∧
    (pyIsNumeric classify sel = false → parseTs sel = none →
      specific_epoch classify parseTs data sel = .invalid) ∧
    (∀ t, pyIsNumeric classify sel = false → parseTs sel = some t →
      (data.countP (fun e => e.timestamp == t) = 0 →
        specific_epoch classify parseTs data sel = .notFound) ∧
      (∀ e, e ∈ data → e.timestamp = t → data.countP (fun e => e.timestamp == t) = 1 →
        specific_epoch classify parseTs data sel = .found e) ∧
      (2 ≤ data.countP (fun e => e.timestamp == t) →
        specific_epoch classify parseTs data sel = .ambiguous)) := by
  refine ⟨?_, ?_, ?_, ?_⟩
  · intro hdec
    have hnum := pyIsNumeric_of_decimal classify sel hdec
    constructor
    · intro h
      simp [specific_epoch, hnum, hdec, h]
    · intro h
      have hlt : ¬ pyIntVal classify sel < data.length := by omega
      simp [specific_epoch, hnum, hdec, hlt]
  · intro hnum hdec
    simp [specific_epoch, hnum, hdec]
  · intro hnum hparse
    simp [specific_epoch, hnum, hparse]
  · intro t hnum hparse
    have hcount : data.countP (fun e => e.timestamp == t) =
        (data.filter (fun e => e.timestamp == t)).length :=
      List.countP_eq_length_filter _ _
    refine ⟨?_, ?_, ?_⟩
    · intro h0
      have hnil : data.filter (fun e => e.timestamp == t) = [] :=
        List.eq_nil_of_length_eq_zero (by omega)
      simp [specific_epoch, hnum, hparse, hnil]
    · intro e hmem hts h1
      obtain ⟨a, ha⟩ := List.length_eq_one.mp
        (show (data.filter (fun e => e.timestamp == t)).length = 1 by omega)
      have he : e ∈ data.filter (fun e => e.timestamp == t) :=
        List.mem_filter.mpr ⟨hmem, by simp [hts]⟩
      rw [ha] at he
      simp at he
      subst he
      simp [specific_epoch, hnum, hparse, ha]
    · intro h2
      cases hf : data.filter (fun e => e.timestamp == t) with
      | nil => rw [hcount, hf] at h2; simp at h2
      | cons a tl =>
        cases tl with
        | nil => rw [hcount, hf] at h2; simp at h2
        | cons b rest => simp [specific_epoch, hnum, hparse, hf]

/-- Witness for C4 (amended): concrete instances of every branch - ASCII
and Arabic-Indic decimal indexing, out-of-range, the numeric non-decimal
crash, and each timestamp outcome. -/
theorem specific_epoch_resolution_witness :
    specific_epoch sampleCharClass (fun _ => none)
        [⟨10, 0, 0, 0, 0, 0, 0⟩, ⟨20, 0, 0, 0, 0, 0, 0⟩] "1" =
      .found ⟨20, 0, 0, 0, 0, 0, 0⟩ ∧
    specific_epoch sampleCharClass (fun _ => none)
        [⟨0, 0, 0, 0, 0, 0, 0⟩, ⟨1, 0, 0, 0, 0, 0, 0⟩, ⟨2, 0, 0, 0, 0, 0, 0⟩,
         ⟨3, 0, 0, 0, 0, 0, 0⟩, ⟨4, 0, 0, 0, 0, 0, 0⟩, ⟨5, 0, 0, 0, 0, 0, 0⟩]
        ⟨[Char.ofNat 0x665]⟩ = .found ⟨5, 0, 0, 0, 0, 0, 0⟩ ∧
    specific_epoch sampleCharClass (fun _ => none) [⟨10, 0, 0, 0, 0, 0, 0⟩] "5" = .invalid ∧
    specific_epoch sampleCharClass (fun _ => none) [] ⟨['5', halfChar]⟩ = .crash ∧
    specific_epoch sampleCharClass (fun _ => none) [⟨10, 0, 0, 0, 0, 0, 0⟩] "junk" =
      .invalid ∧
    specific_epoch sampleCharClass (fun _ => some 30) [⟨10, 0, 0, 0, 0, 0, 0⟩] "ts" =
      .notFound ∧
    specific_epoch sampleCharClass (fun _ => some 10)
        [⟨10, 0, 0, 0, 0, 0, 0⟩, ⟨20, 0, 0, 0, 0, 0, 0⟩] "ts" =
      .found ⟨10, 0, 0, 0, 0, 0, 0⟩ ∧
    specific_epoch sampleCharClass (fun _ => some 10)
        [⟨10, 0, 0, 0, 0, 0, 0⟩, ⟨10, 0, 0, 0, 0, 0, 0⟩] "ts" = .ambiguous := by
  refine ⟨?_, ?_, ?_, ?_, ?_, ?_, ?_, ?_⟩
  · exact ((specific_epoch_resolution sampleCharClass (fun _ => none)
      [⟨10, 0, 0, 0, 0, 0, 0⟩, ⟨20, 0, 0, 0, 0, 0, 0⟩] "1").1 (by decide)).1 (by decide)
  · exact ((specific_epoch_resolution sampleCharClass (fun _ => none)
      [⟨0, 0, 0, 0, 0, 0, 0⟩, ⟨1, 0, 0, 0, 0, 0, 0⟩, ⟨2, 0, 0, 0, 0, 0, 0⟩,
       ⟨3, 0, 0, 0, 0, 0, 0⟩, ⟨4, 0, 0, 0, 0, 0, 0⟩, ⟨5, 0, 0, 0, 0, 0, 0⟩]
      ⟨[Char.ofNat 0x665]⟩).1 (by decide)).1 (by decide)
  · exact ((specific_epoch_resolution sampleCharClass (fun _ => none)
      [⟨10, 0, 0, 0, 0, 0, 0⟩] "5").1 (by decide)).2 (by decide)
  · exact (specific_epoch_resolution sampleCharClass (fun _ => none) []
      ⟨['5', halfChar]⟩).2.1 (by decide) (by decide)
  · exact (specific_epoch_resolution sampleCharClass (fun _ => none)
      [⟨10, 0, 0, 0, 0, 0, 0⟩] "junk").2.2.1 (by decide) rfl
  · exact ((specific_epoch_resolution sampleCharClass (fun _ => some 30)
      [⟨10, 0, 0, 0, 0, 0, 0⟩] "ts").2.2.2 30 (by decide) rfl).1 (by decide)
  · exact ((specific_epoch_resolution sampleCharClass (fun _ => some 10)
      [⟨10, 0, 0, 0, 0, 0, 0⟩, ⟨20, 0, 0, 0, 0, 0, 0⟩] "ts").2.2.2 10 (by decide) rfl).2.1
      ⟨10, 0, 0, 0, 0, 0, 0⟩ (by simp) rfl (by decide)
  · exact ((specific_epoch_resolution sampleCharClass (fun _ => some 10)
      [⟨10, 0, 0, 0, 0, 0, 0⟩, ⟨10, 0, 0, 0, 0, 0, 0⟩] "ts").2.2.2 10 (by decide) rfl).2.2
      (by decide)

end IssTracker

namespace IssTracker

/-! ### Header/metadata timestamp conversion (`NASADataManager._fetch_data`) -/

/-- ASCII range test for the literal character classes hard-coded in
CPython's `_strptime` patterns (e.g. `[0-5]`): unlike `\d` these accept
ASCII characters only. -/
def asciiBetween (lo hi c : Char) : Bool :=
  lo ≤ c && c ≤ hi

/-- Python's Gregorian leap-year test (`calendar.isleap`). -/
def pyLeapYear (y : Nat) : Bool :=
  (y % 4 == 0 && y % 100 != 0) || y % 400 == 0

/-- `re.fullmatch(ISS_TRAJECTORY_DATA_DATETIME_REGEX, v)`: exactly 22
characters of shape `dddd-dddTdd:dd:dd.dddZ`, where `\d` matches any
Unicode decimal digit (category Nd), not only ASCII. -/
def matchISSTimestampRegex (classify : Char → PyCharClass) (s : String) : Bool :=
  match s.data with
  | [y1, y2, y3, y4, c1, j1, j2, j3, c2, h1, h2, c3, m1, m2, c4, s1, s2, c5, f1, f2, f3, c6] =>
    isPyDigit classify y1 && isPyDigit classify y2 && isPyDigit classify y3 &&
    isPyDigit classify y4 && c1 == '-' &&
    isPyDigit classify j1 && isPyDigit classify j2 && isPyDigit classify j3 && c2 == 'T' &&
    isPyDigit classify h1 && isPyDigit classify h2 && c3 == ':' &&
    isPyDigit classify m1 && isPyDigit classify m2 && c4 == ':' &&
    isPyDigit classify s1 && isPyDigit classify s2 && c5 == '.' &&
    isPyDigit classify f1 && isPyDigit classify f2 && isPyDigit classify f3 && c6 == 'Z'
  | _ => false

/-- Field extraction from a regex-shaped value (year, day-of-year, hour,
minute, second, milliseconds), using the digit values `int` assigns (so an
Arabic-Indic year reads as its numeric value).  The record keeps the
fields as written; no claim compares instants across different spellings
of the same calendar date. -/
def parseISSTimestamp (classify : Char → PyCharClass) (s : String) : TS :=
  match s.data with
  | [y1, y2, y3, y4, _, j1, j2, j3, _, h1, h2, _, m1, m2, _, s1, s2, _, f1, f2, f3, _] =>
    ⟨digitVal classify y1 * 1000 + digitVal classify y2 * 100 +
       digitVal classify y3 * 10 + digitVal classify y4,
     digitVal classify j1 * 100 + digitVal classify j2 * 10 + digitVal classify j3,
     digitVal classify h1 * 10 + digitVal classify h2,
     digitVal classify m1 * 10 + digitVal classify m2,
     digitVal classify s1 * 10 + digitVal classify s2,
     digitVal classify f1 * 100 + digitVal classify f2 * 10 + digitVal classify f3⟩
  | _ => ⟨0, 0, 0, 0, 0, 0⟩

/-- Model of `datetime.strptime(v, '%Y-%jT%H:%M:%S.%fZ')` succeeding, for a
value `v` that already matches the fixed regex — the only situation in
which the source calls it.  `_strptime` compiles the format to its own
regex whose groups mix ASCII literal ranges with the Unicode-aware `\d`:
`%j` is `36[0-6]|3[0-5]\d|[1-2]\d\d|0[1-9]\d|00[1-9]|...` (the short
alternatives cannot apply here, because the following input character is a
digit where the format requires the literal `T`), `%H` is
`2[0-3]|[0-1]\d|\d`, `%M` is `[0-5]\d|\d`, `%S` is `6[0-1]|[0-5]\d|\d`,
`%Y` is `\d\d\d\d` (guaranteed by the outer regex) and `%f` is
`[0-9]{1,6}` — ASCII only.  The `datetime` constructor then requires
year ≥ 1 and second ≤ 59 (ruling out the `6[0-1]` second forms), and a
day-of-year of 366 in a non-leap year rolls over into the next year,
which fails only for year 9999 (not a leap year), where the rollover
passes `date.MAXYEAR`.  Each of these behaviours was checked against
CPython. -/
def strptimeAccepts (classify : Char → PyCharClass) (s : String) : Bool :=
  match s.data with
  | [_, _, _, _, _, j1, j2, j3, _, h1, h2, _, m1, m2, _, s1, s2, _, f1, f2, f3, _] =>
    ((j1 == '3' && j2 == '6' && asciiBetween '0' '6' j3) ||
     (j1 == '3' && asciiBetween '0' '5' j2 && isPyDigit classify j3) ||
     ((j1 == '1' || j1 == '2') && isPyDigit classify j2 && isPyDigit classify j3) ||
     (j1 == '0' && asciiBetween '1' '9' j2 && isPyDigit classify j3) ||
     (j1 == '0' && j2 == '0' && asciiBetween '1' '9' j3)) &&
    ((h1 == '2' && asciiBetween '0' '3' h2) ||
     ((h1 == '0' || h1 == '1') && isPyDigit classify h2)) &&
    (asciiBetween '0' '5' m1 && isPyDigit classify m2) &&
    (asciiBetween '0' '5' s1 && isPyDigit classify s2) &&
    (f1.isDigit && f2.isDigit && f3.isDigit) &&
    decide (1 ≤ (parseISSTimestamp classify s).year) &&
    !(decide ((parseISSTimestamp classify s).year = 9999) &&
      decide ((parseISSTimestamp classify s).doy = 366) &&
      !pyLeapYear (parseISSTimestamp classify s).year)
  | _ => false

/-- The per-value body of the conversion loop of `_fetch_data`
(`for k, v in d.items(): if re.fullmatch(...): try: d[k] = strptime(...)
except: warn`): a value matching the regex whose parse succeeds becomes an
instant; everything else — including a matching value whose parse raises —
stays plain text. -/
def convertValue (classify : Char → PyCharClass) (v : String) : HVal :=
  if matchISSTimestampRegex classify v then
    if strptimeAccepts classify v then .instant (parseISSTimestamp classify v)
    else .str v
  else .str v

/-- The whole conversion loop of `_fetch_data`, applied to the `header` and
to the `metadata` dict: every value is rewritten by `convertValue`, keys
untouched. -/
def convertTimestamps (classify : Char → PyCharClass) (d : List (String × String)) : Header :=
  d.map (fun kv => (kv.1, convertValue classify kv.2))

/-- Counterexample to C9 as stated: `'2024-000T00:00:00.000Z'` matches the
fixed timestamp regex (22 digits/punctuation of the right shape) yet the
conversion leaves it as plain text, because `strptime` rejects day-of-year
`000` and the loop swallows the exception. -/
theorem convert_matching_value_left_as_text :
    matchISSTimestampRegex sampleCharClass "2024-000T00:00:00.000Z" = true ∧
    (convertValue sampleCharClass "2024-000T00:00:00.000Z").isInstant = false ∧
    convertValue sampleCharClass "2024-000T00:00:00.000Z" =
      .str "2024-000T00:00:00.000Z" :=
  ⟨by decide, by decide, by decide⟩

/-- C9 (amended): for any character classification — in particular the full
Unicode one — a header/metadata value is converted to a true instant
exactly when it matches the timestamp regex (whose `\d` accepts any
Unicode decimal digit) and the fixed-format parse also succeeds (the
strptime/datetime acceptance modelled by `strptimeAccepts`); a matching
value whose parse fails, and every non-matching value, is left unchanged
as plain text; the loop rewrites values only, keeping every key. -/
theorem convertValue_spec (classify : Char → PyCharClass) (v : String) :
    (matchISSTimestampRegex classify v = true → strptimeAccepts classify v = true →
      convertValue classify v = .instant (parseISSTimestamp classify v)) ∧
    (matchISSTimestampRegex classify v = true → strptimeAccepts classify v = false →
      convertValue classify v = .str v) ∧
    (matchISSTimestampRegex classify v = false → convertValue classify v = .str v) ∧
    (∀ (d : List (String × String)) (kv : String × String), kv ∈ d →
      (kv.1, convertValue classify kv.2) ∈ convertTimestamps classify d) := by
  refine ⟨?_, ?_, ?_, ?_⟩
  · intro h1 h2
    simp [convertValue, h1, h2]
  · intro h1 h2
    simp [convertValue, h1, h2]
  · intro h1
    simp [convertValue, h1]
  · intro d kv hm
    simpa [convertTimestamps] using
      List.mem_map_of_mem (fun kv => (kv.1, convertValue classify kv.2)) hm

/-- The value `'٢٠٢٤-064T19:05:34.727Z'` — an Arabic-Indic year
(U+0662 U+0660 U+0662 U+0664) in front of an otherwise ASCII timestamp —
written by code point to keep the file ASCII.  CPython's regex and
`strptime` both accept it (it denotes 2024-03-04T19:05:34.727000). -/
def arabicYearValue : String :=
  ⟨[Char.ofNat 0x662, Char.ofNat 0x660, Char.ofNat 0x662, Char.ofNat 0x664] ++
    "-064T19:05:34.727Z".data⟩

/-- Witness for C9 (amended), at the sample classification: a parseable
ASCII value and the Arabic-Indic-year value become instants, a plain value
stays text, and the regex-matching `9999-366` value (whose rollover passes
`MAXYEAR`) stays text. -/
theorem convertValue_spec_witness :
    convertValue sampleCharClass "2024-064T19:05:34.727Z" =
      .instant ⟨2024, 64, 19, 5, 34, 727⟩ ∧
    convertValue sampleCharClass arabicYearValue = .instant ⟨2024, 64, 19, 5, 34, 727⟩ ∧
    convertValue sampleCharClass "JSC" = .str "JSC" ∧
    convertValue sampleCharClass "9999-366T00:00:00.000Z" =
      .str "9999-366T00:00:00.000Z" := by
  refine ⟨?_, ?_, ?_, ?_⟩
  · have h := (convertValue_spec sampleCharClass "2024-064T19:05:34.727Z").1
      (by decide) (by decide)
    rw [h]; decide
  · have h := (convertValue_spec sampleCharClass arabicYearValue).1 (by decide) (by decide)
    rw [h]; decide
  · exact (convertValue_spec sampleCharClass "JSC").2.2.1 (by decide)
  · exact (convertValue_spec sampleCharClass "9999-366T00:00:00.000Z").2.1
      (by decide) (by decide)

end IssTracker
